import Mathlib

/-!
# RoadSafe Analytics — verification of the filtering/aggregation core

Shallow embedding of `src/roadsafe_app.py`.  The dashboard is a linear
pipeline: load → derive columns → filter → aggregate.  We embed

* the load-time column derivations (`Visibility_Level`, `Road_Condition`,
  lines 20–42 of the source), working over a small universe `PyVal` of the
  Python cell values that can appear in a raw column (booleans, numbers,
  strings, nulls), with Python `==`/`pd.to_numeric` semantics made explicit;
* the sidebar filter logic (lines 70–149): per-dimension universes, the
  hardcoded visibility option list, the "smart filter" mask, and the
  `isinstance(selected_date_range, tuple)` guard;
* the aggregation views (KPI severity buckets lines 196–200, hourly counts
  lines 233–234, weather top-5 lines 266–267).

Dates are modelled as `Nat` (only their total order is used); severities and
hours as `Nat`; states, weather conditions and the derived categoricals as
`String`, exactly the value spaces the filtered code consults.
-/

namespace RoadSafe

/-- A Python cell value as it can appear in a raw dataframe column:
a `bool`, a number (`int`/`float`, modelled as `ℚ`), a string, or a
null (`None`/`NaN`). -/
inductive PyVal where
  | bool (b : Bool)
  | num (q : ℚ)
  | str (s : String)
  | none
deriving DecidableEq

/-- Python's `v == True` (source line 31 etc.: `row.get('Junction') == True`).
In Python, `True == True`, `1 == True` and `1.0 == True` all hold (bool is a
numeric subtype with value 1), while `"true" == True`, `None == True` and
`NaN == True` are all false. -/
def pyEqTrue : PyVal → Bool
  | .bool b => b
  | .num q => q == 1
  | .str _ => false
  | .none => false

/-- Digit run check used by the decimal parser. -/
def allDigits (l : List Char) : Bool :=
  l.all Char.isDigit

/-- Value of a digit run. -/
def digitsToNat (l : List Char) : Nat :=
  l.foldl (fun a c => a * 10 + (c.toNat - 48)) 0

/-- Core of `pd.to_numeric(..., errors='coerce')` string handling, for plain
decimal literals: optional sign, an integer part, optional `.` and
fractional part.  Any other string coerces to null (`none`), which is all
the classification logic downstream distinguishes. -/
def parseDecimal? (s : String) : Option ℚ :=
  let (neg, body) :=
    match s.toList with
    | '-' :: rest => (true, rest)
    | l => (false, l)
  let intPart := body.takeWhile (fun c => c ≠ '.')
  let rest := body.dropWhile (fun c => c ≠ '.')
  let val? : Option ℚ :=
    match rest with
    | [] =>
        if intPart ≠ [] ∧ allDigits intPart then some (digitsToNat intPart) else Option.none
    | '.' :: frac =>
        if (intPart ≠ [] ∨ frac ≠ []) ∧ allDigits intPart ∧ allDigits frac then
          some ((digitsToNat intPart : ℚ) + (digitsToNat frac : ℚ) / ((10 : ℚ) ^ frac.length))
        else Option.none
    | _ => Option.none
  val?.map (fun q => if neg then -q else q)

/-- `pd.to_numeric(x, errors='coerce')` on one cell (source line 22):
numbers pass through, booleans become 1/0, numeric-literal strings parse,
everything else (non-numeric strings, nulls) coerces to null. -/
def to_numeric : PyVal → Option ℚ
  | .num q => some q
  | .bool b => some (if b then 1 else 0)
  | .str s => parseDecimal? s
  | .none => Option.none

/-- Source lines 21–27: the `Visibility_Level` of one row.  `hasVisibility`
is `'Visibility(mi)' in df.columns`; when the column is present the coerced
value is classified by `lambda x: 'Clear' if pd.notnull(x) and x >= 5 else
'Unclear'`; when it is absent every row gets `'Unknown'`. -/
def visibility_level (hasVisibility : Bool) (v : PyVal) : String :=
  if hasVisibility then
    match to_numeric v with
    | some q => if 5 ≤ q then "Clear" else "Unclear"
    | Option.none => "Unclear"
  else "Unknown"

/-- Which of the four boolean infrastructure flag columns exist in the
dataframe (`'Junction' in df.columns`, …). -/
structure ColumnsPresent where
  junction : Bool
  crossing : Bool
  roundabout : Bool
  bump : Bool
deriving DecidableEq

/-- The four flag cells of one raw row.  (`row.get` of an absent column
returns `None` in pandas; the corresponding field is never consulted here
because `road_condition` guards each access with the column-presence flag,
exactly as the source does.) -/
structure RawRow where
  junction : PyVal
  crossing : PyVal
  roundabout : PyVal
  bump : PyVal
deriving DecidableEq

/-- Source lines 30–40: `road_condition(row)` — first-match priority over
Junction, Crossing, Roundabout, Bump, each access guarded by column
presence; default `'Straight Road'`. -/
def road_condition (cols : ColumnsPresent) (row : RawRow) : String :=
  if cols.junction && pyEqTrue row.junction then "Junction"
  else if cols.crossing && pyEqTrue row.crossing then "Crossing"
  else if cols.roundabout && pyEqTrue row.roundabout then "Roundabout"
  else if cols.bump && pyEqTrue row.bump then "Bump"
  else "Straight Road"

/-- One row of the canonical (loaded + derived + `dropna`-cleaned) table,
restricted to the columns the filter and aggregation logic consults.
`date` is a day number (only its order matters); `visibility` and `road`
are the derived `Visibility_Level` / `Road_Condition` strings. -/
structure Row where
  date : Nat
  state : String
  weather : String
  severity : Nat
  visibility : String
  road : String
  hour : Nat
deriving DecidableEq

/-- Source line 71: `states = sorted(df['State'].unique())` — the distinct
states of the unfiltered table.  (The `sorted` reordering is dropped: every
downstream use — set equality and membership — is order-insensitive.) -/
def states (df : List Row) : List String :=
  (df.map Row.state).dedup

/-- Source line 81: distinct weather conditions of the unfiltered table
(`dropna` is a no-op here: rows with null weather were dropped at load). -/
def weather_options (df : List Row) : List String :=
  (df.map Row.weather).dedup

/-- Source line 91: `severity_levels = sorted(df['Severity'].unique())`. -/
def severity_levels (df : List Row) : List Nat :=
  (df.map Row.severity).dedup

/-- Source line 101: the visibility universe is the HARDCODED list
`['Clear', 'Unclear']`, not the values observed in the data. -/
def visibility_options : List String :=
  ["Clear", "Unclear"]

/-- Source line 111: `road_options = sorted(df['Road_Condition'].unique())`. -/
def road_options (df : List Row) : List String :=
  (df.map Row.road).dedup

/-- Python `set(a) == set(b)` on two lists: mutual membership. -/
def sameSet {α : Type} [DecidableEq α] (a b : List α) : Bool :=
  a.all (fun x => decide (x ∈ b)) && b.all (fun x => decide (x ∈ a))

/-- `a` is a strict subset of `b`, as sets: every element of `a` is in `b`
and the two are not set-equal.  (Used to state the spec's activation
condition; the source's guard is `set(sel) != set(universe)`, which agrees
with strict-subsetness whenever `sel ⊆ universe`, as the multiselect
widgets guarantee.) -/
def strictSubsetOf {α : Type} [DecidableEq α] (a b : List α) : Bool :=
  a.all (fun x => decide (x ∈ b)) && !(sameSet a b)

/-- Source lines 130–149, the SMART FILTER LOGIC for a `(start, end)` tuple:
`mask = (Date >= start) & (Date <= end)`, then for each of the five
categorical dimensions, `if set(selected) != set(universe): mask &= isin`;
finally `filtered_df = df[mask]`.  Universes for state/weather/severity/road
are computed from the unfiltered table; the visibility universe is the
hardcoded `visibility_options`. -/
def filterRows (df : List Row) (start_date end_date : Nat)
    (selected_states selected_weather : List String)
    (selected_severity : List Nat)
    (selected_visibility selected_road : List String) : List Row :=
  df.filter (fun r =>
    (decide (start_date ≤ r.date) && decide (r.date ≤ end_date))
    && (if sameSet selected_states (states df) then true
        else decide (r.state ∈ selected_states))
    && (if sameSet selected_weather (weather_options df) then true
        else decide (r.weather ∈ selected_weather))
    && (if sameSet selected_severity (severity_levels df) then true
        else decide (r.severity ∈ selected_severity))
    && (if sameSet selected_visibility visibility_options then true
        else decide (r.visibility ∈ selected_visibility))
    && (if sameSet selected_road (road_options df) then true
        else decide (r.road ∈ selected_road)))

/-- What `st.date_input` can hand back: a single lone date, or a
`(start, end)` tuple. -/
inductive DateSelection where
  | single (d : Nat)
  | pair (s e : Nat)
deriving DecidableEq

/-- Source lines 60 and 129–149: `filtered_df` starts as `df.copy()`; the
whole filter block runs only under `isinstance(selected_date_range, tuple)`.
A lone date therefore leaves `filtered_df` as the full unfiltered table —
the categorical filters are skipped along with the date filter. -/
def filtered_df (df : List Row) (sel : DateSelection)
    (selected_states selected_weather : List String)
    (selected_severity : List Nat)
    (selected_visibility selected_road : List String) : List Row :=
  match sel with
  | .pair s e =>
      filterRows df s e selected_states selected_weather selected_severity
        selected_visibility selected_road
  | .single _ => df

/-- Modelled from the spec (§4.3, for the C5 comparison): the same filter
with the state constraint omitted entirely. -/
def filterRows_withoutState (df : List Row) (start_date end_date : Nat)
    (selected_weather : List String) (selected_severity : List Nat)
    (selected_visibility selected_road : List String) : List Row :=
  df.filter (fun r =>
    (decide (start_date ≤ r.date) && decide (r.date ≤ end_date))
    && (if sameSet selected_weather (weather_options df) then true
        else decide (r.weather ∈ selected_weather))
    && (if sameSet selected_severity (severity_levels df) then true
        else decide (r.severity ∈ selected_severity))
    && (if sameSet selected_visibility visibility_options then true
        else decide (r.visibility ∈ selected_visibility))
    && (if sameSet selected_road (road_options df) then true
        else decide (r.road ∈ selected_road)))

/-- Modelled from the spec's words (C2): the table "filtered only by the
five categorical dimensions" — the smart-filter mask with the date clause
omitted and everything else unchanged. -/
def filteredOnlyByCategories (df : List Row)
    (selected_states selected_weather : List String)
    (selected_severity : List Nat)
    (selected_visibility selected_road : List String) : List Row :=
  df.filter (fun r =>
    (if sameSet selected_states (states df) then true
        else decide (r.state ∈ selected_states))
    && (if sameSet selected_weather (weather_options df) then true
        else decide (r.weather ∈ selected_weather))
    && (if sameSet selected_severity (severity_levels df) then true
        else decide (r.severity ∈ selected_severity))
    && (if sameSet selected_visibility visibility_options then true
        else decide (r.visibility ∈ selected_visibility))
    && (if sameSet selected_road (road_options df) then true
        else decide (r.road ∈ selected_road)))

/-- Source lines 233–234: `filtered_df['Hour'].value_counts().sort_index()`
— one `(hour, count)` pair per hour value present, sorted ascending by
hour. -/
def hourly_counts (rows : List Row) : List (Nat × Nat) :=
  (List.insertionSort (fun a b => a ≤ b) (rows.map Row.hour).dedup).map
    (fun h => (h, rows.countP (fun r => decide (r.hour = h))))

/-- Source lines 266–267: `...['Weather_Condition'].value_counts().head(5)`
— per-value counts, sorted by count descending (pandas `value_counts`
default), truncated to the first five.  Ties are broken deterministically
(here: by insertion order over the first-occurrence list of values; the
spec accepts any deterministic tie-break). -/
def weather_counts (rows : List Row) : List (String × Nat) :=
  (List.insertionSort (fun a b : String × Nat => b.2 ≤ a.2)
    (((rows.map Row.weather).dedup).map
      (fun w => (w, rows.countP (fun r => decide (r.weather = w)))))).take 5

/-- Source lines 196–200: the KPI row — total count and the counts of the
sub-tables `filtered_df[filtered_df['Severity']==4]` (fatal), `==3`
(severe), `==2` (slight). -/
def severity_kpis (rows : List Row) : Nat × Nat × Nat × Nat :=
  (rows.length,
   (rows.filter (fun r => decide (r.severity = 4))).length,
   (rows.filter (fun r => decide (r.severity = 3))).length,
   (rows.filter (fun r => decide (r.severity = 2))).length)

/-- Totality of the descending-count comparison used by `weather_counts`. -/
instance : IsTotal (String × Nat) (fun a b => b.2 ≤ a.2) :=
  ⟨fun a b => Nat.le_total b.2 a.2⟩

/-- Transitivity of the descending-count comparison used by
`weather_counts`. -/
instance : IsTrans (String × Nat) (fun a b => b.2 ≤ a.2) :=
  ⟨fun _ _ _ h1 h2 => Nat.le_trans h2 h1⟩

/-- Row with every field defaulted except those a given example cares
about; used only to build concrete tables in example conjuncts. -/
def mkRow (date : Nat) (state weather : String) (severity : Nat)
    (visibility road : String) (hour : Nat) : Row :=
  ⟨date, state, weather, severity, visibility, road, hour⟩

/-- A small concrete two-row table shared by the concrete witnesses:
states {CA, TX}, weathers {Rain, Clear}, severities {2, 4}. -/
def dfEx : List Row :=
  [mkRow 3 "CA" "Rain" 2 "Unclear" "Junction" 7,
   mkRow 5 "TX" "Clear" 4 "Clear" "Straight Road" 9]

/-- Unfolding of `sameSet` into mutual membership. -/
theorem sameSet_iff {α : Type} [DecidableEq α] (a b : List α) :
    sameSet a b = true ↔ (∀ x ∈ a, x ∈ b) ∧ (∀ x ∈ b, x ∈ a) := by
  simp [sameSet]

/-- A per-dimension guard of the smart filter (`if set(sel) != set(univ):
mask &= isin`) is, for selections drawn from the universe, exactly "if the
selection is a strict subset then the value must be selected". -/
theorem filter_guard_iff {α : Type} [DecidableEq α] {a b : List α} (v : α)
    (hsub : ∀ x ∈ a, x ∈ b) :
    ((if sameSet a b then true else decide (v ∈ a)) = true) ↔
      (strictSubsetOf a b = true → v ∈ a) := by
  cases h : sameSet a b with
  | true => simp [h, strictSubsetOf]
  | false =>
      have hall : a.all (fun x => decide (x ∈ b)) = true := by
        simp only [List.all_eq_true, decide_eq_true_eq]
        exact hsub
      simp [h, strictSubsetOf, hall]

/-- Claim C1: for every derived table, inclusive date range and five
selection sets (each drawn from its dimension's universe, as the
multiselect widgets guarantee), the filter engine returns exactly the rows
whose date lies in `[start_date, end_date]` and which, for each dimension
whose selection is a strict subset of that dimension's full universe, carry
a selected value; a selection equal to the full universe imposes no
constraint. -/
theorem c1_filter_exact (df : List Row) (s e : Nat)
    (selS selW : List String) (selSev : List Nat) (selV selR : List String) (r : Row)
    (hS : ∀ x ∈ selS, x ∈ states df)
    (hW : ∀ x ∈ selW, x ∈ weather_options df)
    (hSev : ∀ x ∈ selSev, x ∈ severity_levels df)
    (hV : ∀ x ∈ selV, x ∈ visibility_options)
    (hR : ∀ x ∈ selR, x ∈ road_options df) :
    r ∈ filterRows df s e selS selW selSev selV selR ↔
      r ∈ df ∧ s ≤ r.date ∧ r.date ≤ e
      ∧ (strictSubsetOf selS (states df) = true → r.state ∈ selS)
      ∧ (strictSubsetOf selW (weather_options df) = true → r.weather ∈ selW)
      ∧ (strictSubsetOf selSev (severity_levels df) = true → r.severity ∈ selSev)
      ∧ (strictSubsetOf selV visibility_options = true → r.visibility ∈ selV)
      ∧ (strictSubsetOf selR (road_options df) = true → r.road ∈ selR) := by
  rw [filterRows, List.mem_filter]
  simp only [Bool.and_eq_true, decide_eq_true_eq]
  rw [filter_guard_iff r.state hS, filter_guard_iff r.weather hW,
    filter_guard_iff r.severity hSev, filter_guard_iff r.visibility hV,
    filter_guard_iff r.road hR]
  tauto

/-- Concrete witness for `c1_filter_exact`: the five subset hypotheses hold
for these selections over `dfEx`, and the membership characterization is
obtained at the first row of `dfEx`. -/
theorem c1_filter_exact_witness :
    (∀ x ∈ (["CA"] : List String), x ∈ states dfEx)
    ∧ (∀ x ∈ (["Rain", "Clear"] : List String), x ∈ weather_options dfEx)
    ∧ (∀ x ∈ ([2, 4] : List Nat), x ∈ severity_levels dfEx)
    ∧ (∀ x ∈ (["Clear", "Unclear"] : List String), x ∈ visibility_options)
    ∧ (∀ x ∈ (["Junction", "Straight Road"] : List String), x ∈ road_options dfEx)
    ∧ (mkRow 3 "CA" "Rain" 2 "Unclear" "Junction" 7 ∈
        filterRows dfEx 0 10 ["CA"] ["Rain", "Clear"] [2, 4] ["Clear", "Unclear"]
          ["Junction", "Straight Road"] ↔
      mkRow 3 "CA" "Rain" 2 "Unclear" "Junction" 7 ∈ dfEx
      ∧ 0 ≤ (mkRow 3 "CA" "Rain" 2 "Unclear" "Junction" 7).date
      ∧ (mkRow 3 "CA" "Rain" 2 "Unclear" "Junction" 7).date ≤ 10
      ∧ (strictSubsetOf ["CA"] (states dfEx) = true →
          (mkRow 3 "CA" "Rain" 2 "Unclear" "Junction" 7).state ∈ ["CA"])
      ∧ (strictSubsetOf ["Rain", "Clear"] (weather_options dfEx) = true →
          (mkRow 3 "CA" "Rain" 2 "Unclear" "Junction" 7).weather ∈ ["Rain", "Clear"])
      ∧ (strictSubsetOf [2, 4] (severity_levels dfEx) = true →
          (mkRow 3 "CA" "Rain" 2 "Unclear" "Junction" 7).severity ∈ [2, 4])
      ∧ (strictSubsetOf ["Clear", "Unclear"] visibility_options = true →
          (mkRow 3 "CA" "Rain" 2 "Unclear" "Junction" 7).visibility ∈ ["Clear", "Unclear"])
      ∧ (strictSubsetOf ["Junction", "Straight Road"] (road_options dfEx) = true →
          (mkRow 3 "CA" "Rain" 2 "Unclear" "Junction" 7).road ∈ ["Junction", "Straight Road"])) :=
  ⟨by decide, by decide, by decide, by decide, by decide,
    c1_filter_exact dfEx 0 10 ["CA"] ["Rain", "Clear"] [2, 4] ["Clear", "Unclear"]
      ["Junction", "Straight Road"] (mkRow 3 "CA" "Rain" 2 "Unclear" "Junction" 7)
      (by decide) (by decide) (by decide) (by decide) (by decide)⟩

/-- Counterexample to claim C2 as stated: when the date control yields a
lone date, the code skips the WHOLE filter block (line 129's
`isinstance(..., tuple)` guard encloses the categorical filters too), so
the result is the full table, not the table filtered by the categorical
dimensions.  Here the state selection `["CA"]` is a strict subset of
`{CA, TX}`, so categorical-only filtering would drop the TX row, yet the
single-date result keeps it. -/
theorem c2_single_date_counterexample :
    filtered_df dfEx (DateSelection.single 3) ["CA"] ["Rain", "Clear"] [2, 4]
        ["Clear", "Unclear"] ["Junction", "Straight Road"] ≠
      filteredOnlyByCategories dfEx ["CA"] ["Rain", "Clear"] [2, 4]
        ["Clear", "Unclear"] ["Junction", "Straight Road"] := by
  decide

/-- Claim C2 (amended): if the date-range control yields a lone date (not a
`(start, end)` tuple), the entire filter logic — the date mask AND the five
categorical filters — is skipped, and the result is the full unfiltered
table; a `(start, end)` tuple, including the degenerate `start = end`, runs
the full smart-filter logic. -/
theorem c2_single_date_amended (df : List Row) (d : Nat)
    (selS selW : List String) (selSev : List Nat) (selV selR : List String) :
    filtered_df df (DateSelection.single d) selS selW selSev selV selR = df
    ∧ filtered_df df (DateSelection.pair d d) selS selW selSev selV selR =
        filterRows df d d selS selW selSev selV selR :=
  ⟨rfl, rfl⟩

/-- Counterexample to claim C3 as stated: the claim says a flag counts as
set ONLY if literally boolean true, so that a float `1.0` does not count —
but Python's `1.0 == True` holds, so the source's `row.get('Junction') ==
True` accepts a numeric `1.0` cell: a row whose only "set" flag is
`Junction = 1.0` yields `"Junction"`, where the claim demands
`"Straight Road"`. -/
theorem c3_flag_truthiness_counterexample :
    PyVal.num 1 ≠ PyVal.bool true
    ∧ road_condition ⟨true, true, true, true⟩
        ⟨PyVal.num 1, PyVal.bool false, PyVal.bool false, PyVal.bool false⟩ = "Junction" := by
  decide

/-- Claim C3 (amended): a flag counts as set exactly when its value
compares equal to Python `True`, i.e. is boolean true or a number equal
to 1 (so `1.0` DOES count, while strings such as `"true"` do not);
`road_condition` is first-match priority Junction > Crossing > Roundabout >
Bump over set flags, with an absent flag column never set, and
`"Straight Road"` when no flag is set; in particular Junction = true with
Crossing = true yields `"Junction"`. -/
theorem c3_road_condition_amended (cols : ColumnsPresent) (row : RawRow) :
    (∀ v : PyVal, pyEqTrue v = true ↔ v = PyVal.bool true ∨ ∃ q : ℚ, v = PyVal.num q ∧ q = 1)
    ∧ (road_condition cols row = "Junction" ↔
        (cols.junction && pyEqTrue row.junction) = true)
    ∧ (road_condition cols row = "Crossing" ↔
        ¬(cols.junction && pyEqTrue row.junction) = true
        ∧ (cols.crossing && pyEqTrue row.crossing) = true)
    ∧ (road_condition cols row = "Roundabout" ↔
        ¬(cols.junction && pyEqTrue row.junction) = true
        ∧ ¬(cols.crossing && pyEqTrue row.crossing) = true
        ∧ (cols.roundabout && pyEqTrue row.roundabout) = true)
    ∧ (road_condition cols row = "Bump" ↔
        ¬(cols.junction && pyEqTrue row.junction) = true
        ∧ ¬(cols.crossing && pyEqTrue row.crossing) = true
        ∧ ¬(cols.roundabout && pyEqTrue row.roundabout) = true
        ∧ (cols.bump && pyEqTrue row.bump) = true)
    ∧ (road_condition cols row = "Straight Road" ↔
        ¬(cols.junction && pyEqTrue row.junction) = true
        ∧ ¬(cols.crossing && pyEqTrue row.crossing) = true
        ∧ ¬(cols.roundabout && pyEqTrue row.roundabout) = true
        ∧ ¬(cols.bump && pyEqTrue row.bump) = true)
    ∧ road_condition ⟨true, true, true, true⟩
        ⟨PyVal.bool true, PyVal.bool true, PyVal.bool false, PyVal.bool false⟩ = "Junction" := by
  refine ⟨fun v => by cases v <;> simp [pyEqTrue], ?_, ?_, ?_, ?_, ?_, by decide⟩
  all_goals unfold road_condition
  all_goals split_ifs with h1 h2 h3 h4 <;> simp_all

/-- Claim C4: a row's `Visibility_Level` is `"Unknown"` iff the
`Visibility(mi)` column is absent from the source table; when the column is
present, it is `"Clear"` iff the numerically coerced value is non-null and
at least 5, and `"Unclear"` in every other case — including a null cell and
a non-numeric string cell (present-but-missing values yield `"Unclear"`,
never `"Unknown"`). -/
theorem c4_visibility_level (v : PyVal) :
    (∀ hasV : Bool, visibility_level hasV v = "Unknown" ↔ hasV = false)
    ∧ (visibility_level true v = "Clear" ↔ ∃ q : ℚ, to_numeric v = some q ∧ 5 ≤ q)
    ∧ (visibility_level true v = "Unclear" ↔ ¬∃ q : ℚ, to_numeric v = some q ∧ 5 ≤ q)
    ∧ visibility_level true (PyVal.str "patchy fog") = "Unclear"
    ∧ visibility_level true PyVal.none = "Unclear"
    ∧ visibility_level false (PyVal.num 9) = "Unknown" := by
  refine ⟨fun hasV => ?_, ?_, ?_, by decide, by decide, by decide⟩
  · cases hasV
    · simp [visibility_level]
    · rcases h : to_numeric v with _ | q <;> simp [visibility_level, h]
      split_ifs <;> simp
  · rcases h : to_numeric v with _ | q <;> simp [visibility_level, h]
  · rcases h : to_numeric v with _ | q <;> simp [visibility_level, h]

/-- Claim C5: if the selection for a dimension equals that dimension's full
universe (here: the state dimension, as sets), the filter result is
identical to the result with that dimension's constraint omitted — so
selecting every state yields the same rows (hence the same row count) as
not filtering by state at all. -/
theorem c5_full_universe_no_constraint (df : List Row) (s e : Nat)
    (selS selW : List String) (selSev : List Nat) (selV selR : List String)
    (h : sameSet selS (states df) = true) :
    filterRows df s e selS selW selSev selV selR =
      filterRows_withoutState df s e selW selSev selV selR := by
  unfold filterRows filterRows_withoutState
  apply List.filter_congr
  intro r _
  simp [h]

/-- Concrete witness for `c5_full_universe_no_constraint`: selecting
`{TX, CA}` — the full (order-insensitive) state universe of `dfEx` —
matches omitting the state filter. -/
theorem c5_full_universe_no_constraint_witness :
    sameSet ["TX", "CA"] (states dfEx) = true
    ∧ filterRows dfEx 0 10 ["TX", "CA"] ["Rain"] [2, 4] ["Clear", "Unclear"]
        ["Junction", "Straight Road"] =
      filterRows_withoutState dfEx 0 10 ["Rain"] [2, 4] ["Clear", "Unclear"]
        ["Junction", "Straight Road"] :=
  ⟨by decide,
    c5_full_universe_no_constraint dfEx 0 10 ["TX", "CA"] ["Rain"] [2, 4]
      ["Clear", "Unclear"] ["Junction", "Straight Road"] (by decide)⟩

/-- Claim C6: when the severity universe is non-empty, an empty severity
selection is a strict subset, so the severity constraint is active and no
row's severity lies in the empty set — the filter returns zero rows. -/
theorem c6_empty_selection_empty_result (df : List Row) (s e : Nat)
    (selS selW : List String) (selV selR : List String)
    (h : severity_levels df ≠ []) :
    filterRows df s e selS selW [] selV selR = [] := by
  have hss : sameSet ([] : List Nat) (severity_levels df) = false := by
    rcases hd : severity_levels df with _ | ⟨y, ys⟩
    · exact absurd hd h
    · simp [sameSet]
  unfold filterRows
  rw [List.filter_eq_nil_iff]
  intro r _
  simp [hss]

/-- Concrete witness for `c6_empty_selection_empty_result` on `dfEx`,
whose severity universe `{2, 4}` is non-empty. -/
theorem c6_empty_selection_empty_result_witness :
    severity_levels dfEx ≠ []
    ∧ filterRows dfEx 0 10 ["CA", "TX"] ["Rain", "Clear"] [] ["Clear", "Unclear"]
        ["Junction", "Straight Road"] = [] :=
  ⟨by decide,
    c6_empty_selection_empty_result dfEx 0 10 ["CA", "TX"] ["Rain", "Clear"]
      ["Clear", "Unclear"] ["Junction", "Straight Road"] (by decide)⟩

/-- Claim C10: the visibility filter's universe is the hardcoded
`['Clear', 'Unclear']`, so an active (strict-subset) visibility selection
can never match a row whose `Visibility_Level` is `"Unknown"` (the value
every row gets when the visibility column is absent); on an all-`"Unknown"`
table any active visibility selection yields zero rows. -/
theorem c10_unknown_never_matches (df : List Row) (s e : Nat)
    (selS selW : List String) (selSev : List Nat) (selV selR : List String)
    (hsub : ∀ x ∈ selV, x ∈ visibility_options)
    (hne : sameSet selV visibility_options = false) :
    (∀ r : Row, r.visibility = "Unknown" →
        r ∉ filterRows df s e selS selW selSev selV selR)
    ∧ ((∀ r ∈ df, r.visibility = "Unknown") →
        filterRows df s e selS selW selSev selV selR = []) := by
  have hnotin : "Unknown" ∉ selV := by
    intro hmem
    have hx := hsub _ hmem
    simp [visibility_options] at hx
  have key : ∀ r : Row, r.visibility = "Unknown" →
      r ∉ filterRows df s e selS selW selSev selV selR := by
    intro r hvis hmem
    rw [filterRows, List.mem_filter] at hmem
    have hmask := hmem.2
    simp [hne, hvis, hnotin] at hmask
  refine ⟨key, fun hall => ?_⟩
  rw [List.eq_nil_iff_forall_not_mem]
  intro r hmem
  have hdf : r ∈ df := by
    rw [filterRows, List.mem_filter] at hmem
    exact hmem.1
  exact key r (hall r hdf) hmem

/-- Concrete witness for `c10_unknown_never_matches`: selecting only
`"Clear"` (a strict subset of the hardcoded visibility universe) on a
one-row table whose visibility column was absent yields zero rows. -/
theorem c10_unknown_never_matches_witness :
    (∀ x ∈ (["Clear"] : List String), x ∈ visibility_options)
    ∧ sameSet ["Clear"] visibility_options = false
    ∧ (∀ r ∈ [mkRow 0 "CA" "Rain" 2 "Unknown" "Straight Road" 0],
        r.visibility = "Unknown")
    ∧ filterRows [mkRow 0 "CA" "Rain" 2 "Unknown" "Straight Road" 0] 0 10
        ["CA"] ["Rain"] [2] ["Clear"] ["Straight Road"] = [] :=
  ⟨by decide, by decide, by decide,
    (c10_unknown_never_matches [mkRow 0 "CA" "Rain" 2 "Unknown" "Straight Road" 0]
      0 10 ["CA"] ["Rain"] [2] ["Clear"] ["Straight Road"]
      (by decide) (by decide)).2 (by decide)⟩

/-- Claim C7: the hourly aggregation returns one `(hour, count)` pair per
hour value present in the table — the count being the number of rows at
that hour — sorted strictly ascending by hour, with absent hours omitted;
on a table with hours {0,0,5,5,5,23} it returns exactly
`[(0,2), (5,3), (23,1)]`. -/
theorem c7_hourly_counts (rows : List Row) :
    List.Sorted (fun a b : Nat => a < b) ((hourly_counts rows).map Prod.fst)
    ∧ (∀ h c, (h, c) ∈ hourly_counts rows ↔
        (∃ r ∈ rows, r.hour = h) ∧ c = rows.countP (fun r => decide (r.hour = h)))
    ∧ hourly_counts [mkRow 0 "CA" "Rain" 2 "Clear" "Junction" 0,
        mkRow 0 "CA" "Rain" 2 "Clear" "Junction" 0,
        mkRow 0 "CA" "Rain" 2 "Clear" "Junction" 5,
        mkRow 0 "CA" "Rain" 2 "Clear" "Junction" 5,
        mkRow 0 "CA" "Rain" 2 "Clear" "Junction" 5,
        mkRow 0 "CA" "Rain" 2 "Clear" "Junction" 23] = [(0, 2), (5, 3), (23, 1)] := by
  refine ⟨?_, ?_, by decide⟩
  · have hperm := List.perm_insertionSort (fun a b : Nat => a ≤ b) (rows.map Row.hour).dedup
    have hsorted := List.sorted_insertionSort (fun a b : Nat => a ≤ b) (rows.map Row.hour).dedup
    have hnodup : (List.insertionSort (fun a b : Nat => a ≤ b) (rows.map Row.hour).dedup).Nodup :=
      hperm.nodup_iff.mpr (List.nodup_dedup _)
    have hstrict : List.Sorted (fun a b : Nat => a < b)
        (List.insertionSort (fun a b : Nat => a ≤ b) (rows.map Row.hour).dedup) :=
      (List.Pairwise.and hsorted hnodup).imp (fun hab => lt_of_le_of_ne hab.1 hab.2)
    have hmap : (hourly_counts rows).map Prod.fst =
        List.insertionSort (fun a b : Nat => a ≤ b) (rows.map Row.hour).dedup := by
      simp [hourly_counts, List.map_map, Function.comp_def]
    rw [hmap]
    exact hstrict
  · intro h c
    rw [hourly_counts, List.mem_map]
    constructor
    · rintro ⟨a, ha, heq⟩
      simp only [Prod.mk.injEq] at heq
      obtain ⟨rfl, rfl⟩ := heq
      rw [List.mem_insertionSort, List.mem_dedup, List.mem_map] at ha
      exact ⟨ha, rfl⟩
    · rintro ⟨⟨r, hr, hr2⟩, rfl⟩
      refine ⟨h, ?_, rfl⟩
      rw [List.mem_insertionSort, List.mem_dedup, List.mem_map]
      exact ⟨r, hr, hr2⟩

set_option maxRecDepth 100000 in
/-- Claim C8: the weather aggregation returns at most five `(weather,
count)` pairs, with correct counts over observed weather values, ordered by
descending count, and consisting of a top-5: any observed weather value not
among the returned ones has a count no larger than every returned count;
on a table with seven distinct values of frequencies [50,40,30,20,10,5,1]
it returns exactly the five most frequent, in descending count order. -/
theorem c8_weather_top5 (rows : List Row) :
    (weather_counts rows).length ≤ 5
    ∧ List.Sorted (fun a b : String × Nat => b.2 ≤ a.2) (weather_counts rows)
    ∧ (∀ p ∈ weather_counts rows,
        p.2 = rows.countP (fun r => decide (r.weather = p.1))
        ∧ p.1 ∈ rows.map Row.weather)
    ∧ (∀ w, w ∈ rows.map Row.weather →
        (∀ p ∈ weather_counts rows, p.1 ≠ w) →
        ∀ p ∈ weather_counts rows,
          rows.countP (fun r => decide (r.weather = w)) ≤ p.2)
    ∧ weather_counts
        (List.replicate 50 (mkRow 0 "CA" "a" 2 "Clear" "Junction" 0)
          ++ List.replicate 40 (mkRow 0 "CA" "b" 2 "Clear" "Junction" 0)
          ++ List.replicate 30 (mkRow 0 "CA" "c" 2 "Clear" "Junction" 0)
          ++ List.replicate 20 (mkRow 0 "CA" "d" 2 "Clear" "Junction" 0)
          ++ List.replicate 10 (mkRow 0 "CA" "e" 2 "Clear" "Junction" 0)
          ++ List.replicate 5 (mkRow 0 "CA" "f" 2 "Clear" "Junction" 0)
          ++ List.replicate 1 (mkRow 0 "CA" "g" 2 "Clear" "Junction" 0)) =
      [("a", 50), ("b", 40), ("c", 30), ("d", 20), ("e", 10)] := by
  refine ⟨?_, ?_, ?_, ?_, by decide⟩
  · rw [weather_counts, List.length_take]
    exact min_le_left _ _
  · exact List.Pairwise.sublist (List.take_sublist _ _) (List.sorted_insertionSort _ _)
  · intro p hp
    rw [weather_counts] at hp
    have hpL := List.mem_of_mem_take hp
    rw [List.mem_insertionSort, List.mem_map] at hpL
    obtain ⟨w, hw, heq⟩ := hpL
    obtain rfl := heq.symm
    exact ⟨rfl, List.mem_dedup.mp hw⟩
  · intro w hw hnot p hp
    have hwpair : (w, rows.countP (fun r => decide (r.weather = w))) ∈
        List.insertionSort (fun a b : String × Nat => b.2 ≤ a.2)
          (((rows.map Row.weather).dedup).map
            (fun v => (v, rows.countP (fun r => decide (r.weather = v))))) := by
      rw [List.mem_insertionSort, List.mem_map]
      exact ⟨w, List.mem_dedup.mpr hw, rfl⟩
    have hdrop : (w, rows.countP (fun r => decide (r.weather = w))) ∈
        List.drop 5 (List.insertionSort (fun a b : String × Nat => b.2 ≤ a.2)
          (((rows.map Row.weather).dedup).map
            (fun v => (v, rows.countP (fun r => decide (r.weather = v)))))) := by
      rcases (List.mem_append.mp
          (by rw [List.take_append_drop]; exact hwpair :
            (w, rows.countP (fun r => decide (r.weather = w))) ∈
              List.take 5 (List.insertionSort (fun a b : String × Nat => b.2 ≤ a.2)
                (((rows.map Row.weather).dedup).map
                  (fun v => (v, rows.countP (fun r => decide (r.weather = v))))))
              ++ List.drop 5 (List.insertionSort (fun a b : String × Nat => b.2 ≤ a.2)
                (((rows.map Row.weather).dedup).map
                  (fun v => (v, rows.countP (fun r => decide (r.weather = v)))))))) with
        htake | hdrop
      · exact absurd rfl (hnot _ (by rw [weather_counts]; exact htake))
      · exact hdrop
    rw [weather_counts] at hp
    have hs := List.sorted_insertionSort (fun a b : String × Nat => b.2 ≤ a.2)
      (((rows.map Row.weather).dedup).map
        (fun v => (v, rows.countP (fun r => decide (r.weather = v)))))
    exact hs.rel_of_mem_take_of_mem_drop hp hdrop

/-- Claim C9: the severity-bucket KPI view reports the total row count and
the number of rows with severity exactly 4 (fatal), 3 (severe) and 2
(slight); severity 1 has no separate bucket; for severities
[4,4,3,2,2,2,1] it yields total 7, fatal 2, severe 1, slight 3. -/
theorem c9_severity_kpis (rows : List Row) :
    severity_kpis rows =
      (rows.length,
       rows.countP (fun r => decide (r.severity = 4)),
       rows.countP (fun r => decide (r.severity = 3)),
       rows.countP (fun r => decide (r.severity = 2)))
    ∧ severity_kpis [mkRow 0 "CA" "Rain" 4 "Clear" "Junction" 0,
        mkRow 0 "CA" "Rain" 4 "Clear" "Junction" 0,
        mkRow 0 "CA" "Rain" 3 "Clear" "Junction" 0,
        mkRow 0 "CA" "Rain" 2 "Clear" "Junction" 0,
        mkRow 0 "CA" "Rain" 2 "Clear" "Junction" 0,
        mkRow 0 "CA" "Rain" 2 "Clear" "Junction" 0,
        mkRow 0 "CA" "Rain" 1 "Clear" "Junction" 0] = (7, 2, 1, 3) := by
  refine ⟨?_, by decide⟩
  simp [severity_kpis, List.countP_eq_length_filter]

end RoadSafe
